import Mathlib

/-!
# NFC Music Player — verification of the tag-to-playback session lifecycle

Shallow embedding of the repository `nfc-music-player`:

* `music_player.py` — the `MusicPlayer` class (`play_album`, `_play_loop`, `stop`);
* `main.py` — the `NFCMusicController` class (`get_album_info`, poll loop body,
  `handle_new_tag`, `handle_tag_removed`);
* `nfc_reader.py` — `NFCReader.read_tag`;
* `logger.py` — `ActivityLogger.log_activity`, modelled as an append-only event list.

External collaborators (the filesystem seen through `os.path.exists`/`glob`, the
hardware reader, Python's `random.shuffle`, wall-clock time) are modelled as
explicit parameters.  `random.shuffle` is embedded as the CPython Fisher–Yates
loop (`for i in reversed(range(1, len(x))): j = randbelow(i+1); x[i], x[j] = x[j], x[i]`)
driven by an arbitrary random source.  Threads are modelled by counting the
alive background run-loop contexts: `stop` joins the run loop (the loop exits
cooperatively once `is_playing` is false) and `play_album` spawns a fresh one.
-/

namespace NFCPlayer

/-- Python truthiness of an optional string: `None` and `""` are falsy,
any non-empty string is truthy. -/
def strTruthy : Option String → Bool
  | none => false
  | some s => !s.isEmpty

/-- `os.path.join(a, b)` for the simple two-component case used by the code. -/
def pathJoin (a b : String) : String := a ++ "/" ++ b

/-- Substring containment on lists, used to embed Python's `"..." in str(e)`. -/
def listContainsSub [BEq α] (needle : List α) : List α → Bool
  | [] => needle.isEmpty
  | c :: cs => needle.isPrefixOf (c :: cs) || listContainsSub needle cs

/-- A value of `config['nfc_mappings']`: either the legacy plain-string format
(album name, no shuffle) or the dict format with optional `album` and
`shuffle` keys (`mapping.get('album')`, `mapping.get('shuffle', False)`). -/
inductive MappingVal where
  | legacy (album : String)
  | full (album : Option String) (shuffle : Option Bool)
  deriving DecidableEq, Repr

/-- Python truthiness of a mapping value: an empty string and an empty dict
are falsy (`if not mapping`); within the config schema a dict is empty iff
neither key is present. -/
def MappingVal.truthy : MappingVal → Bool
  | .legacy a => !a.isEmpty
  | .full a s => a.isSome || s.isSome

/-- The parts of `config.json` the controller and player read. -/
structure Config where
  usb_mount_path : String
  nfc_mappings : String → Option MappingVal

/-- The filesystem as the player observes it: `os.path.exists` on a path, and
the (unsorted) result of `glob.glob(os.path.join(path, "*.mp3"))`. -/
structure Filesystem where
  pathExists : String → Bool
  mp3Files : String → List String

/-- Mutable state of a `MusicPlayer` instance.  `threads` counts the alive
background `_play_loop` execution contexts (`playback_thread` holds the most
recent one; the count tracks every spawned-and-not-yet-joined context). -/
structure PlayerState where
  current_playlist : List String
  current_index : Nat
  is_playing : Bool
  is_shuffled : Bool
  threads : Nat
  deriving DecidableEq, Repr

/-- `MusicPlayer.__init__`: empty playlist, index 0, not playing, no thread. -/
def PlayerState.init : PlayerState :=
  { current_playlist := [], current_index := 0, is_playing := false
    is_shuffled := false, threads := 0 }

/-- `MusicPlayer.stop` (music_player.py lines 100-116): set `is_playing` and
`is_shuffled` to false, stop the mixer, join the playback thread (the run loop
exits within the join timeout because `is_playing` is false and every wait in
the loop is bounded), clear the playlist and reset the index. -/
def MusicPlayer.stop (_p : PlayerState) : PlayerState :=
  { current_playlist := [], current_index := 0, is_playing := false
    is_shuffled := false, threads := 0 }

/-- Lexicographic comparison of character lists by code point, the order
Python uses on `str`. -/
def charListLe : List Char → List Char → Bool
  | [], _ => true
  | _ :: _, [] => false
  | c :: cs, d :: ds => if c < d then true else if d < c then false else charListLe cs ds

/-- Python's `<=` on strings: code-point lexicographic order. -/
def strLe (a b : String) : Bool := charListLe a.toList b.toList

/-- Insert a string into an already sorted list, before the first strictly
greater element. -/
def insertSorted (x : String) : List String → List String
  | [] => [x]
  | y :: ys => if strLe x y then x :: y :: ys else y :: insertSorted x ys

/-- Python's `list.sort()` on a list of strings: the stable ascending sort in
code-point lexicographic order (embedded as insertion sort, which computes
the same list). -/
def pySort : List String → List String
  | [] => []
  | x :: xs => insertSorted x (pySort xs)

/-- One swap `x[i], x[j] = x[j], x[i]` on a list (no-op out of range;
in the shuffle loop both indices are always in range). -/
def listSwap (l : List α) (i j : Nat) : List α :=
  match l[i]?, l[j]? with
  | some a, some b => (l.set i b).set j a
  | _, _ => l

/-- The CPython `random.shuffle` loop `for i in reversed(range(1, len(x)))`,
counting `i` down from `n-1` to `1`; `rand i` stands for `randbelow(i+1)`
(reduced mod `i+1` so that an arbitrary source stays in range). -/
def shuffleSteps (rand : Nat → Nat) : Nat → List α → List α
  | 0, l => l
  | i + 1, l => shuffleSteps rand i (listSwap l (i + 1) (rand (i + 1) % (i + 2)))

/-- `random.shuffle` (external stdlib collaborator): in-place Fisher–Yates
driven by the random source `rand`. -/
def pyShuffle (rand : Nat → Nat) (l : List α) : List α :=
  shuffleSteps rand (l.length - 1) l

/-- `MusicPlayer.play_album` (music_player.py lines 26-62).  Returns the
Python return value and the player state after the call.  The two failure
returns happen before `self.stop()`, so they leave the state untouched;
the success path stops any current playback (joining its run-loop context),
installs the sorted-then-optionally-shuffled playlist, and spawns a new
run-loop context. -/
def MusicPlayer.play_album (fs : Filesystem) (rand : Nat → Nat) (cfg : Config)
    (album_name : String) (shuffle : Bool) (p : PlayerState) : Bool × PlayerState :=
  let album_path := pathJoin cfg.usb_mount_path album_name
  if !fs.pathExists album_path then
    (false, p)
  else
    let mp3_files := pySort (fs.mp3Files album_path)
    if mp3_files.isEmpty then
      (false, p)
    else
      let p1 := MusicPlayer.stop p
      let tracks := if shuffle then pyShuffle rand mp3_files else mp3_files
      (true,
        { current_playlist := tracks, current_index := 0, is_playing := true
          is_shuffled := shuffle, threads := p1.threads + 1 })

/-- Outcome of one attempt at the current track inside `_play_loop`:
either the mixer plays it to natural completion, or loading/playing raises
(the `except` branch). -/
inductive TrackOutcome where
  | completed
  | fault
  deriving DecidableEq, Repr

/-- Result of one iteration of the `while` body of `MusicPlayer._play_loop`
(music_player.py lines 65-98): the player state afterwards, whether a
playback error was printed, the inter-attempt delay in milliseconds
(`pygame.time.wait`), and whether the iteration executed `break`. -/
structure IterResult where
  state : PlayerState
  faultLogged : Bool
  delayMs : Nat
  broke : Bool
  deriving DecidableEq, Repr

/-- The `while self.is_playing and self.current_playlist` loop guard. -/
def loopGuard (p : PlayerState) : Bool :=
  p.is_playing && !p.current_playlist.isEmpty

/-- One iteration of the `_play_loop` body.  On natural completion, if the
session is still active, advance the index modulo the playlist length and
pause 500 ms between tracks.  On a fault, print the error; if the session is
still active and the playlist non-empty, advance the index modulo the
playlist length and wait 1000 ms before the next attempt, else `break`. -/
def MusicPlayer.play_loop_iter (outcome : TrackOutcome) (p : PlayerState) : IterResult :=
  match outcome with
  | .completed =>
    if p.is_playing then
      { state := { p with current_index := (p.current_index + 1) % p.current_playlist.length }
        faultLogged := false
        delayMs := 500
        broke := false }
    else
      { state := p, faultLogged := false, delayMs := 0, broke := false }
  | .fault =>
    if p.is_playing && !p.current_playlist.isEmpty then
      { state := { p with current_index := (p.current_index + 1) % p.current_playlist.length }
        faultLogged := true
        delayMs := 1000
        broke := false }
    else
      { state := p, faultLogged := true, delayMs := 0, broke := true }

/-- One line appended by `ActivityLogger.log_activity` (timestamps are
external and omitted). -/
structure Event where
  nfc_id : String
  album : String
  action : String
  deriving DecidableEq, Repr

/-- Mutable state of the `NFCMusicController` plus the activity log. -/
structure CtrlState where
  current_nfc_id : Option String
  is_playing : Bool
  player : PlayerState
  events : List Event
  deriving DecidableEq, Repr

/-- Controller state right after `NFCMusicController.__init__` (the
`ActivityLogger` constructor logs one SYSTEM startup line). -/
def CtrlState.init : CtrlState :=
  { current_nfc_id := none, is_playing := false, player := PlayerState.init
    events := [{ nfc_id := "SYSTEM", album := "Music Player", action := "started" }] }

/-- `NFCMusicController.get_album_info` (main.py lines 22-33): look the tag up
in `nfc_mappings`; a missing or falsy mapping yields `(None, False)`; the
legacy string format yields the string with shuffle off; the dict format
yields `mapping.get('album')` and `mapping.get('shuffle', False)`. -/
def get_album_info (cfg : Config) (nfc_id : String) : Option String × Bool :=
  match cfg.nfc_mappings nfc_id with
  | none => (none, false)
  | some m =>
    if !m.truthy then (none, false)
    else
      match m with
      | .legacy a => (some a, false)
      | .full a s => (a, s.getD false)

/-- `NFCMusicController.handle_new_tag` (main.py lines 78-95).  A truthy album
name triggers `play_album`; only on success are `current_nfc_id` and
`is_playing` updated and a `started`/`started_shuffled` event logged.  A falsy
album name logs one `unknown_tag` event and touches nothing else. -/
def handle_new_tag (cfg : Config) (fs : Filesystem) (rand : Nat → Nat)
    (nfc_id : String) (st : CtrlState) : CtrlState :=
  let info := get_album_info cfg nfc_id
  if strTruthy info.1 then
    let album := info.1.getD ""
    let res := MusicPlayer.play_album fs rand cfg album info.2 st.player
    if res.1 then
      { st with
        player := res.2
        current_nfc_id := some nfc_id
        is_playing := true
        events := st.events ++
          [{ nfc_id := nfc_id
             album := album
             action := if info.2 then "started_shuffled" else "started" }] }
    else
      { st with player := res.2 }
  else
    { st with events := st.events ++
        [{ nfc_id := nfc_id, album := "Unknown", action := "unknown_tag" }] }

/-- `NFCMusicController.handle_tag_removed` (main.py lines 97-109): look up the
previously observed tag (falsy album becomes `"Unknown"`), stop the player,
log `stopped`/`stopped_shuffled`, clear `current_nfc_id` and `is_playing`. -/
def handle_tag_removed (cfg : Config) (st : CtrlState) : CtrlState :=
  let info := match st.current_nfc_id with
    | some t => get_album_info cfg t
    | none => (none, false)
  let album := if strTruthy info.1 then info.1.getD "" else "Unknown"
  { st with
    player := MusicPlayer.stop st.player
    events := st.events ++
      [{ nfc_id := st.current_nfc_id.getD "None"
         album := album
         action := if info.2 then "stopped_shuffled" else "stopped" }]
    current_nfc_id := none
    is_playing := false }

/-- One iteration of the `while True` poll loop in `NFCMusicController.run`
(main.py lines 61-71), given the value `read` returned by
`self.nfc_reader.read_tag()` on this tick. -/
def tick (cfg : Config) (fs : Filesystem) (rand : Nat → Nat)
    (st : CtrlState) (read : Option String) : CtrlState :=
  if strTruthy read = true ∧ read ≠ st.current_nfc_id then
    handle_new_tag cfg fs rand (read.getD "") st
  else if strTruthy read = false ∧ strTruthy st.current_nfc_id = true then
    handle_tag_removed cfg st
  else
    st

/-- An atomic step of the whole system: a controller tick, one iteration of
the background run loop (only possible while a run-loop context is alive and
its guard holds), or the exit of a run-loop context once its guard fails. -/
inductive SysAct where
  | sense (read : Option String)
  | loopIter (outcome : TrackOutcome)
  | loopExit
  deriving DecidableEq, Repr

/-- Small-step transition of controller plus background run loop. -/
def sysStep (cfg : Config) (fs : Filesystem) (rand : Nat → Nat)
    (st : CtrlState) : SysAct → CtrlState
  | .sense read => tick cfg fs rand st read
  | .loopIter outcome =>
    if 0 < st.player.threads ∧ loopGuard st.player = true then
      { st with player := (MusicPlayer.play_loop_iter outcome st.player).state }
    else st
  | .loopExit =>
    if 0 < st.player.threads ∧ loopGuard st.player = false then
      { st with player := { st.player with threads := st.player.threads - 1 } }
    else st

/-- Run the system from startup through a sequence of atomic steps. -/
def sysRun (cfg : Config) (fs : Filesystem) (rand : Nat → Nat)
    (acts : List SysAct) : CtrlState :=
  acts.foldl (sysStep cfg fs rand) CtrlState.init

/-- Result of one hardware read attempt by `SimpleMFRC522.read_no_block`:
either a value `(id, text)` (with `id` possibly `None`), or a raised
exception with message `msg`. -/
inductive HWReadResult where
  | ok (id : Option Nat) (text : String)
  | exn (msg : String)
  deriving DecidableEq, Repr

/-- `NFCReader.read_tag` (nfc_reader.py lines 10-18): on a successful read
return `str(id)` when `id` is truthy (non-`None` and non-zero) else `None`;
on an exception return `None`, printing `NFC read error: ...` only when the
message does not contain `"AUTH ERROR"`.  The second component is the list of
lines printed. -/
def read_tag : HWReadResult → Option String × List String
  | .ok id _text =>
    (match id with
     | some n => if n ≠ 0 then some (toString n) else none
     | none => none, [])
  | .exn msg =>
    (none,
     if listContainsSub ("AUTH ERROR".toList) msg.toList then []
     else ["NFC read error: " ++ msg])

/-! ### Concrete instances used as witnesses and counterexamples -/

/-- A config with no tag mappings. -/
def cfgNoMap : Config :=
  { usb_mount_path := "/media/usb", nfc_mappings := fun _ => none }

/-- A config mapping tag `"111"` to album `"Jazz"` without shuffle and tag
`"222"` to album `"Jazz"` with shuffle. -/
def cfgJazz : Config :=
  { usb_mount_path := "/media/usb",
    nfc_mappings := fun t =>
      if t = "111" then some (MappingVal.legacy "Jazz")
      else if t = "222" then some (MappingVal.full (some "Jazz") (some true))
      else none }

/-- A filesystem with no paths at all. -/
def fsEmpty : Filesystem :=
  { pathExists := fun _ => false, mp3Files := fun _ => [] }

/-- A filesystem where `/media/usb/Jazz` exists and holds three MP3 files. -/
def fsJazz : Filesystem :=
  { pathExists := fun p => p = "/media/usb/Jazz",
    mp3Files := fun p => if p = "/media/usb/Jazz" then ["c.mp3", "a.mp3", "b.mp3"] else [] }

/-- A player state mid-way through a three-track album, on its last track. -/
def pJazz : PlayerState :=
  { current_playlist := ["a.mp3", "b.mp3", "c.mp3"], current_index := 2
    is_playing := true, is_shuffled := false, threads := 1 }

/-- A degenerate random source. -/
def randZero : Nat → Nat := fun _ => 0


/-! ### Permutation facts about the sort and the Fisher–Yates shuffle -/

theorem insertSorted_perm (x : String) (l : List String) :
    (insertSorted x l).Perm (x :: l) := by
  induction l with
  | nil => simp [insertSorted]
  | cons y ys ih =>
    simp only [insertSorted]
    split
    · exact List.Perm.refl _
    · exact (ih.cons y).trans (List.Perm.swap x y ys)

theorem pySort_perm (l : List String) : (pySort l).Perm l := by
  induction l with
  | nil => simp [pySort]
  | cons x xs ih =>
    exact (insertSorted_perm x (pySort xs)).trans (ih.cons x)

theorem pySort_length (l : List String) : (pySort l).length = l.length :=
  (pySort_perm l).length_eq

theorem pySort_isEmpty (l : List String) : (pySort l).isEmpty = l.isEmpty := by
  cases hl : pySort l with
  | nil =>
    have := pySort_length l
    rw [hl] at this
    cases l with
    | nil => rfl
    | cons a as => simp at this
  | cons a as =>
    have := pySort_length l
    rw [hl] at this
    cases l with
    | nil => simp at this
    | cons b bs => rfl

theorem cons_set_perm (a b : α) :
    ∀ (xs : List α) (k : Nat), xs[k]? = some b → (b :: xs.set k a).Perm (a :: xs) := by
  intro xs
  induction xs with
  | nil => intro k h; simp at h
  | cons y ys ih =>
    intro k h
    cases k with
    | zero =>
      simp only [List.getElem?_cons_zero, Option.some.injEq] at h
      subst h
      simpa [List.set] using List.Perm.swap a y ys
    | succ m =>
      simp only [List.getElem?_cons_succ] at h
      simp only [List.set]
      exact ((List.Perm.swap y b (ys.set m a)).trans ((ih m h).cons y)).trans
        (List.Perm.swap a y ys)

theorem set_set_perm (a b : α) :
    ∀ (l : List α) (i j : Nat), l[i]? = some a → l[j]? = some b →
      ((l.set i b).set j a).Perm l := by
  intro l
  induction l with
  | nil => intro i j hi _; simp at hi
  | cons x xs ih =>
    intro i j hi hj
    cases i with
    | zero =>
      simp only [List.getElem?_cons_zero, Option.some.injEq] at hi
      subst hi
      cases j with
      | zero =>
        simp only [List.getElem?_cons_zero, Option.some.injEq] at hj
        subst hj
        simp [List.set]
      | succ m =>
        simp only [List.getElem?_cons_succ] at hj
        simp only [List.set]
        exact cons_set_perm x b xs m hj
    | succ k =>
      simp only [List.getElem?_cons_succ] at hi
      cases j with
      | zero =>
        simp only [List.getElem?_cons_zero, Option.some.injEq] at hj
        subst hj
        simp only [List.set]
        exact cons_set_perm x a xs k hi
      | succ m =>
        simp only [List.getElem?_cons_succ] at hj
        simp only [List.set]
        exact (ih k m hi hj).cons x

theorem listSwap_perm (l : List α) (i j : Nat) : (listSwap l i j).Perm l := by
  unfold listSwap
  cases hi : l[i]? with
  | none => exact List.Perm.refl l
  | some a =>
    cases hj : l[j]? with
    | none => exact List.Perm.refl l
    | some b => exact set_set_perm a b l i j hi hj

theorem shuffleSteps_perm (rand : Nat → Nat) :
    ∀ (n : Nat) (l : List α), (shuffleSteps rand n l).Perm l := by
  intro n
  induction n with
  | zero => intro l; exact List.Perm.refl l
  | succ i ih =>
    intro l
    exact (ih _).trans (listSwap_perm l (i + 1) (rand (i + 1) % (i + 2)))

theorem pyShuffle_perm (rand : Nat → Nat) (l : List α) : (pyShuffle rand l).Perm l :=
  shuffleSteps_perm rand (l.length - 1) l

/-! ### Thread-count lemmas for the session invariant -/

theorem play_album_snd_threads (fs : Filesystem) (rand : Nat → Nat) (cfg : Config)
    (album : String) (shuffle : Bool) (p : PlayerState) :
    (MusicPlayer.play_album fs rand cfg album shuffle p).2.threads = p.threads ∨
    (MusicPlayer.play_album fs rand cfg album shuffle p).2.threads = 1 := by
  simp only [MusicPlayer.play_album]
  split
  · left; rfl
  · split
    · left; rfl
    · right; rfl

theorem play_loop_iter_threads (o : TrackOutcome) (p : PlayerState) :
    (MusicPlayer.play_loop_iter o p).state.threads = p.threads := by
  cases o <;> simp only [MusicPlayer.play_loop_iter] <;> split <;> rfl

theorem handle_new_tag_threads_le (cfg : Config) (fs : Filesystem) (rand : Nat → Nat)
    (t : String) (st : CtrlState) (h : st.player.threads ≤ 1) :
    (handle_new_tag cfg fs rand t st).player.threads ≤ 1 := by
  have hp := play_album_snd_threads fs rand cfg ((get_album_info cfg t).1.getD "")
    (get_album_info cfg t).2 st.player
  simp only [handle_new_tag]
  split
  · split
    · rcases hp with h' | h' <;> (simp [h']; try omega)
    · rcases hp with h' | h' <;> (simp [h']; try omega)
  · simpa using h

theorem handle_tag_removed_threads (cfg : Config) (st : CtrlState) :
    (handle_tag_removed cfg st).player.threads = 0 := rfl

theorem sysStep_threads_le (cfg : Config) (fs : Filesystem) (rand : Nat → Nat)
    (st : CtrlState) (a : SysAct) (h : st.player.threads ≤ 1) :
    (sysStep cfg fs rand st a).player.threads ≤ 1 := by
  cases a with
  | sense r =>
    simp only [sysStep, tick]
    split
    · exact handle_new_tag_threads_le cfg fs rand (r.getD "") st h
    · split
      · rw [handle_tag_removed_threads]; omega
      · exact h
  | loopIter o =>
    simp only [sysStep]
    split
    · simpa [play_loop_iter_threads] using h
    · exact h
  | loopExit =>
    simp only [sysStep]
    split
    · simp; omega
    · exact h

/-! ### Claim theorems -/

/-- Claim C1: at most one `PlaybackSession` is active at any time.  For every
sequence of atomic system steps (controller ticks on arbitrary reads,
background run-loop iterations, and run-loop exits) starting at the initial
state, the number of alive background run-loop contexts never exceeds one:
`play_album` launches a run loop only after `stop` has joined any existing
one, so no reachable state has two active sessions. -/
theorem C1_at_most_one_active_session (cfg : Config) (fs : Filesystem)
    (rand : Nat → Nat) (acts : List SysAct) :
    (sysRun cfg fs rand acts).player.threads ≤ 1 := by
  have main : ∀ (as : List SysAct) (st : CtrlState), st.player.threads ≤ 1 →
      (as.foldl (sysStep cfg fs rand) st).player.threads ≤ 1 := by
    intro as
    induction as with
    | nil => intro st h; exact h
    | cons a as ih =>
      intro st h
      exact ih _ (sysStep_threads_le cfg fs rand st a h)
  exact main acts CtrlState.init (Nat.zero_le 1)

/-- Claim C5: for an active session, when the current track completes
naturally the run loop advances the position to `(i + 1) % n`; in particular
after the last track (position `n - 1`) the position wraps to `0` and the
loop guard still holds, so the album loops. -/
theorem C5_track_advance_wraps (p : PlayerState)
    (hplay : p.is_playing = true) (hne : p.current_playlist ≠ []) :
    (MusicPlayer.play_loop_iter TrackOutcome.completed p).state.current_index =
      (p.current_index + 1) % p.current_playlist.length ∧
    (p.current_index = p.current_playlist.length - 1 →
      (MusicPlayer.play_loop_iter TrackOutcome.completed p).state.current_index = 0 ∧
      loopGuard (MusicPlayer.play_loop_iter TrackOutcome.completed p).state = true) := by
  have hlen : 0 < p.current_playlist.length := List.length_pos.mpr hne
  have hemp : p.current_playlist.isEmpty = false := by
    cases hpl : p.current_playlist with
    | nil => exact absurd hpl hne
    | cons x xs => rfl
  refine ⟨?_, fun hi => ⟨?_, ?_⟩⟩
  · simp [MusicPlayer.play_loop_iter, hplay]
  · simp only [MusicPlayer.play_loop_iter, hplay, if_true]
    show (p.current_index + 1) % p.current_playlist.length = 0
    rw [hi, Nat.sub_add_cancel hlen, Nat.mod_self]
  · simp [MusicPlayer.play_loop_iter, loopGuard, hplay, hemp]

/-- Witness for C5 at a concrete three-track state sitting on the last
track. -/
theorem C5_track_advance_wraps_witness :
    pJazz.is_playing = true ∧ pJazz.current_playlist ≠ [] ∧
    ((MusicPlayer.play_loop_iter TrackOutcome.completed pJazz).state.current_index =
      (pJazz.current_index + 1) % pJazz.current_playlist.length ∧
     (pJazz.current_index = pJazz.current_playlist.length - 1 →
       (MusicPlayer.play_loop_iter TrackOutcome.completed pJazz).state.current_index = 0 ∧
       loopGuard (MusicPlayer.play_loop_iter TrackOutcome.completed pJazz).state = true)) :=
  ⟨rfl, by decide, C5_track_advance_wraps pJazz rfl (by decide)⟩

/-- Claim C8: a track-load or playback fault during an active session does not
abort the session: the fault is printed, the position advances to the next
track modulo the playlist length, a fixed 1000 ms inter-attempt delay is
applied, the iteration does not break, and the loop guard still holds (one
attempt of the faulting track per iteration, then the next track). -/
theorem C8_fault_skips_and_continues (p : PlayerState) (h : loopGuard p = true) :
    (MusicPlayer.play_loop_iter TrackOutcome.fault p).faultLogged = true ∧
    (MusicPlayer.play_loop_iter TrackOutcome.fault p).state.current_index =
      (p.current_index + 1) % p.current_playlist.length ∧
    (MusicPlayer.play_loop_iter TrackOutcome.fault p).delayMs = 1000 ∧
    (MusicPlayer.play_loop_iter TrackOutcome.fault p).broke = false ∧
    (MusicPlayer.play_loop_iter TrackOutcome.fault p).state.is_playing = true ∧
    (MusicPlayer.play_loop_iter TrackOutcome.fault p).state.current_playlist =
      p.current_playlist ∧
    loopGuard (MusicPlayer.play_loop_iter TrackOutcome.fault p).state = true := by
  have h' : (p.is_playing && !p.current_playlist.isEmpty) = true := h
  rw [Bool.and_eq_true] at h'
  have hp : p.is_playing = true := h'.1
  have hq : p.current_playlist.isEmpty = false := by
    have := h'.2; cases hx : p.current_playlist.isEmpty <;> simp [hx] at this ⊢
  simp [MusicPlayer.play_loop_iter, loopGuard, hp, hq]

/-- Witness for C8 at a concrete active three-track state. -/
theorem C8_fault_skips_and_continues_witness :
    loopGuard pJazz = true ∧
    ((MusicPlayer.play_loop_iter TrackOutcome.fault pJazz).faultLogged = true ∧
     (MusicPlayer.play_loop_iter TrackOutcome.fault pJazz).state.current_index =
       (pJazz.current_index + 1) % pJazz.current_playlist.length ∧
     (MusicPlayer.play_loop_iter TrackOutcome.fault pJazz).delayMs = 1000 ∧
     (MusicPlayer.play_loop_iter TrackOutcome.fault pJazz).broke = false ∧
     (MusicPlayer.play_loop_iter TrackOutcome.fault pJazz).state.is_playing = true ∧
     (MusicPlayer.play_loop_iter TrackOutcome.fault pJazz).state.current_playlist =
       pJazz.current_playlist ∧
     loopGuard (MusicPlayer.play_loop_iter TrackOutcome.fault pJazz).state = true) :=
  ⟨by decide, C8_fault_skips_and_continues pJazz (by decide)⟩

/-- Claim C9 counterexample: for the concrete transient authentication error
`"AUTH ERROR"`, `read_tag` swallows the exception and reports no tag, but
prints nothing: the printed-line list is empty, refuting the claim that the
authentication error is logged. -/
theorem C9_counterexample : read_tag (HWReadResult.exn "AUTH ERROR") = (none, []) := rfl

/-- Claim C9 (amended): every exception raised by the hardware read yields
"no tag"; a message containing `"AUTH ERROR"` is swallowed silently (nothing
printed), while any other fault is reported by printing one
`NFC read error:` line. -/
theorem C9_read_faults_amended (msg : String) :
    (read_tag (HWReadResult.exn msg)).1 = none ∧
    (read_tag (HWReadResult.exn msg)).2 =
      (if listContainsSub ("AUTH ERROR".toList) msg.toList then []
       else ["NFC read error: " ++ msg]) :=
  ⟨rfl, rfl⟩

/-- Claim C10: `stop` is idempotent and total: from any player state —
never started, already idle, or mid-playback — `stop` yields the one idle
state (`is_playing = false`, `is_shuffled = false`, empty playlist, position
0, no background context), and stopping twice equals stopping once. -/
theorem C10_stop_idempotent (p : PlayerState) :
    MusicPlayer.stop (MusicPlayer.stop p) = MusicPlayer.stop p ∧
    MusicPlayer.stop p = PlayerState.init :=
  ⟨rfl, rfl⟩

/-! ### Evaluation lemmas for play_album -/

theorem play_album_success_conds (fs : Filesystem) (rand : Nat → Nat) (cfg : Config)
    (album : String) (shuffle : Bool) (p : PlayerState)
    (h : (MusicPlayer.play_album fs rand cfg album shuffle p).1 = true) :
    fs.pathExists (pathJoin cfg.usb_mount_path album) = true ∧
    (pySort (fs.mp3Files (pathJoin cfg.usb_mount_path album))).isEmpty = false := by
  by_cases h1 : fs.pathExists (pathJoin cfg.usb_mount_path album) = true
  · by_cases h2 : (pySort (fs.mp3Files (pathJoin cfg.usb_mount_path album))).isEmpty = false
    · exact ⟨h1, h2⟩
    · exfalso
      have h2' : (pySort (fs.mp3Files (pathJoin cfg.usb_mount_path album))).isEmpty = true := by
        cases hx : (pySort (fs.mp3Files (pathJoin cfg.usb_mount_path album))).isEmpty
        · exact absurd hx h2
        · rfl
      simp [MusicPlayer.play_album, h1, h2'] at h
  · exfalso
    have h1' : fs.pathExists (pathJoin cfg.usb_mount_path album) = false := by
      cases hx : fs.pathExists (pathJoin cfg.usb_mount_path album)
      · rfl
      · exact absurd hx h1
    simp [MusicPlayer.play_album, h1'] at h

theorem play_album_eval_success (fs : Filesystem) (rand : Nat → Nat) (cfg : Config)
    (album : String) (shuffle : Bool) (p : PlayerState)
    (h1 : fs.pathExists (pathJoin cfg.usb_mount_path album) = true)
    (h2 : (pySort (fs.mp3Files (pathJoin cfg.usb_mount_path album))).isEmpty = false) :
    MusicPlayer.play_album fs rand cfg album shuffle p =
      (true,
        { current_playlist :=
            if shuffle then
              pyShuffle rand (pySort (fs.mp3Files (pathJoin cfg.usb_mount_path album)))
            else pySort (fs.mp3Files (pathJoin cfg.usb_mount_path album))
          current_index := 0
          is_playing := true
          is_shuffled := shuffle
          threads := 1 }) := by
  simp [MusicPlayer.play_album, MusicPlayer.stop, h1, h2]

/-- Claim C2 counterexample: with no mapping for tag `"999"`, a tick that
reads `"999"` (differing from the previously observed tag, here none) does
not update the previously observed tag to `"999"`, contradicting the claim
that it is updated regardless of lookup and playback outcome. -/
theorem C2_counterexample :
    (tick cfgNoMap fsEmpty randZero CtrlState.init (some "999")).current_nfc_id ≠
      some "999" := by
  decide

/-- Claim C2 (amended): on a tick that reads a (truthy) tag differing from
the previously observed one, the controller updates the previously observed
tag to the new tag exactly when the tag resolves to a truthy album name and
`play_album` returns success; on an unknown tag or a failed start the
previously observed tag is left unchanged. -/
theorem C2_tag_update_only_on_success (cfg : Config) (fs : Filesystem)
    (rand : Nat → Nat) (st : CtrlState) (t : String) (ht : t.isEmpty = false)
    (hne : some t ≠ st.current_nfc_id) :
    (tick cfg fs rand st (some t)).current_nfc_id =
      (if strTruthy (get_album_info cfg t).1 = true ∧
          (MusicPlayer.play_album fs rand cfg ((get_album_info cfg t).1.getD "")
            (get_album_info cfg t).2 st.player).1 = true
       then some t else st.current_nfc_id) := by
  have hcond : strTruthy (some t) = true ∧ some t ≠ st.current_nfc_id :=
    ⟨by simp [strTruthy, ht], hne⟩
  simp only [tick]
  rw [if_pos hcond]
  simp only [Option.getD_some, handle_new_tag]
  split
  · split
    · next h1 h2 => simp [h1, h2]
    · next h1 h2 => simp [h1, h2]
  · next h1 => simp [h1]

/-- Witness for the amended C2 at the concrete known tag `"111"` of the
Jazz configuration (lookup succeeds and playback starts). -/
theorem C2_tag_update_only_on_success_witness :
    (tick cfgJazz fsJazz randZero CtrlState.init (some "111")).current_nfc_id =
      (if strTruthy (get_album_info cfgJazz "111").1 = true ∧
          (MusicPlayer.play_album fsJazz randZero cfgJazz
            ((get_album_info cfgJazz "111").1.getD "")
            (get_album_info cfgJazz "111").2 CtrlState.init.player).1 = true
       then some "111" else CtrlState.init.current_nfc_id) :=
  C2_tag_update_only_on_success cfgJazz fsJazz randZero CtrlState.init "111"
    (by decide) (by decide)

/-- Claim C3: a tick that reads a tag with no entry in `nfc_mappings`
(differing from the previously observed tag) leaves the player state exactly
as it was — no session is started or stopped — and appends exactly one
`unknown_tag` event to the activity log. -/
theorem C3_unknown_tag_no_session_one_event (cfg : Config) (fs : Filesystem)
    (rand : Nat → Nat) (st : CtrlState) (t : String)
    (hmap : cfg.nfc_mappings t = none) (ht : t.isEmpty = false)
    (hne : some t ≠ st.current_nfc_id) :
    (tick cfg fs rand st (some t)).player = st.player ∧
    (tick cfg fs rand st (some t)).events =
      st.events ++ [{ nfc_id := t, album := "Unknown", action := "unknown_tag" }] := by
  have hcond : strTruthy (some t) = true ∧ some t ≠ st.current_nfc_id :=
    ⟨by simp [strTruthy, ht], hne⟩
  have hinfo : get_album_info cfg t = (none, false) := by
    simp [get_album_info, hmap]
  simp only [tick]
  rw [if_pos hcond]
  simp [handle_new_tag, hinfo, strTruthy]

/-- Witness for C3 at the concrete unmapped tag `"999"`. -/
theorem C3_unknown_tag_no_session_one_event_witness :
    ((tick cfgNoMap fsJazz randZero CtrlState.init (some "999")).player =
      CtrlState.init.player ∧
     (tick cfgNoMap fsJazz randZero CtrlState.init (some "999")).events =
      CtrlState.init.events ++
        [{ nfc_id := "999", album := "Unknown", action := "unknown_tag" }]) :=
  C3_unknown_tag_no_session_one_event cfgNoMap fsJazz randZero CtrlState.init "999"
    (by decide) (by decide) (by decide)

/-- Claim C4: whenever `play_album` succeeds with `shuffle = true`, the
installed playlist is a permutation of the sorted track list: it has the same
length and the same set of track paths as the sorted playlist. -/
theorem C4_shuffle_preserves_multiset (fs : Filesystem) (rand : Nat → Nat)
    (cfg : Config) (album : String) (p : PlayerState)
    (h : (MusicPlayer.play_album fs rand cfg album true p).1 = true) :
    ((MusicPlayer.play_album fs rand cfg album true p).2.current_playlist).Perm
      (pySort (fs.mp3Files (pathJoin cfg.usb_mount_path album))) ∧
    ((MusicPlayer.play_album fs rand cfg album true p).2.current_playlist).length =
      (pySort (fs.mp3Files (pathJoin cfg.usb_mount_path album))).length ∧
    ∀ x, x ∈ (MusicPlayer.play_album fs rand cfg album true p).2.current_playlist ↔
      x ∈ pySort (fs.mp3Files (pathJoin cfg.usb_mount_path album)) := by
  obtain ⟨h1, h2⟩ := play_album_success_conds fs rand cfg album true p h
  rw [play_album_eval_success fs rand cfg album true p h1 h2]
  have hperm :
      (pyShuffle rand (pySort (fs.mp3Files (pathJoin cfg.usb_mount_path album)))).Perm
        (pySort (fs.mp3Files (pathJoin cfg.usb_mount_path album))) :=
    pyShuffle_perm rand _
  exact ⟨by simpa using hperm, by simpa using hperm.length_eq,
    fun x => by simpa using hperm.mem_iff⟩

/-- Witness for C4: shuffling the three-track Jazz album. -/
theorem C4_shuffle_preserves_multiset_witness :
    (MusicPlayer.play_album fsJazz randZero cfgJazz "Jazz" true PlayerState.init).1 = true ∧
    (((MusicPlayer.play_album fsJazz randZero cfgJazz "Jazz" true
        PlayerState.init).2.current_playlist).Perm
      (pySort (fsJazz.mp3Files (pathJoin cfgJazz.usb_mount_path "Jazz"))) ∧
     ((MusicPlayer.play_album fsJazz randZero cfgJazz "Jazz" true
        PlayerState.init).2.current_playlist).length =
      (pySort (fsJazz.mp3Files (pathJoin cfgJazz.usb_mount_path "Jazz"))).length ∧
     ∀ x, x ∈ (MusicPlayer.play_album fsJazz randZero cfgJazz "Jazz" true
        PlayerState.init).2.current_playlist ↔
       x ∈ pySort (fsJazz.mp3Files (pathJoin cfgJazz.usb_mount_path "Jazz"))) :=
  ⟨by decide, C4_shuffle_preserves_multiset fsJazz randZero cfgJazz "Jazz"
    PlayerState.init (by decide)⟩

/-- Claim C6: for every album resolving to a non-empty track list, `play_album`
returns success and an immediate `stop` leaves the one idle state: not
playing, not shuffled, empty playlist, position 0 and no background run-loop
context alive. -/
theorem C6_start_then_stop_idle (fs : Filesystem) (rand : Nat → Nat) (cfg : Config)
    (album : String) (shuffle : Bool) (p : PlayerState)
    (hex : fs.pathExists (pathJoin cfg.usb_mount_path album) = true)
    (hne : fs.mp3Files (pathJoin cfg.usb_mount_path album) ≠ []) :
    (MusicPlayer.play_album fs rand cfg album shuffle p).1 = true ∧
    MusicPlayer.stop (MusicPlayer.play_album fs rand cfg album shuffle p).2 =
      PlayerState.init := by
  have h2 : (pySort (fs.mp3Files (pathJoin cfg.usb_mount_path album))).isEmpty = false := by
    rw [pySort_isEmpty]
    cases hx : fs.mp3Files (pathJoin cfg.usb_mount_path album) with
    | nil => exact absurd hx hne
    | cons a as => rfl
  rw [play_album_eval_success fs rand cfg album shuffle p hex h2]
  exact ⟨rfl, rfl⟩

/-- Witness for C6 on the concrete three-track Jazz album. -/
theorem C6_start_then_stop_idle_witness :
    fsJazz.pathExists (pathJoin cfgJazz.usb_mount_path "Jazz") = true ∧
    fsJazz.mp3Files (pathJoin cfgJazz.usb_mount_path "Jazz") ≠ [] ∧
    ((MusicPlayer.play_album fsJazz randZero cfgJazz "Jazz" false pJazz).1 = true ∧
     MusicPlayer.stop (MusicPlayer.play_album fsJazz randZero cfgJazz "Jazz"
       false pJazz).2 = PlayerState.init) :=
  ⟨by decide, by decide,
    C6_start_then_stop_idle fsJazz randZero cfgJazz "Jazz" false pJazz
      (by decide) (by decide)⟩

/-- Claim C7: when the album directory is absent or holds no MP3 files,
`play_album` returns `False` and the whole player state — playlist, position,
flags and any running session — is exactly what it was before the call (the
failure returns precede the `self.stop()` call). -/
theorem C7_play_album_failure_unchanged (fs : Filesystem) (rand : Nat → Nat)
    (cfg : Config) (album : String) (shuffle : Bool) (p : PlayerState)
    (h : fs.pathExists (pathJoin cfg.usb_mount_path album) = false ∨
         fs.mp3Files (pathJoin cfg.usb_mount_path album) = []) :
    MusicPlayer.play_album fs rand cfg album shuffle p = (false, p) := by
  rcases h with h | h
  · simp [MusicPlayer.play_album, h]
  · simp only [MusicPlayer.play_album, h]
    split
    · rfl
    · simp [pySort]

/-- Witness for C7: a filesystem with no album directory, from a mid-playback
state. -/
theorem C7_play_album_failure_unchanged_witness :
    (fsEmpty.pathExists (pathJoin cfgJazz.usb_mount_path "Jazz") = false ∨
     fsEmpty.mp3Files (pathJoin cfgJazz.usb_mount_path "Jazz") = []) ∧
    MusicPlayer.play_album fsEmpty randZero cfgJazz "Jazz" false pJazz =
      (false, pJazz) :=
  ⟨by decide,
    C7_play_album_failure_unchanged fsEmpty randZero cfgJazz "Jazz" false pJazz
      (by decide)⟩

end NFCPlayer
